import Mathlib

/-!
Shallow embedding of `rust/storage/src/admissioncontrolleds3.rs`
(`AdmissionControlledS3Storage`), a request-coalescing proxy in front of an
S3 backend.

Modelling conventions:
* Byte buffers (`Vec<u8>`, `Arc<Vec<u8>>`) are `List Nat`; the `Arc` wrapper
  is dropped since we never mutate buffers.
* A backend byte stream is the finite list of items it will yield:
  `List ByteStreamItem`.
* Rust `Result` is `Except`; a Rust panic (the source's `unreachable!()`)
  is the `none` value of an outer `Option` layer.
* The async interleaving of `get` is modelled by a small-step event semantics
  (`ProxyState`, `GetEvent`): the two mutex-guarded critical sections of
  `get` are the two atomic step functions, and an execution is a list of
  events folded over a state.
-/

/-- Modelled from the spec: the proxy-level error kinds of the error
taxonomy (section 7) — `NotFound` for a missing object and `BackendError`
for a transport/storage failure.  The concrete `ErrorCodes` enum lives in
the external `chroma_error` crate, outside `src/`. -/
inductive ErrorCodes where
  | NotFound
  | BackendError
deriving DecidableEq

/-- Modelled from the spec: the backend error type `S3GetError` is defined
in `s3.rs`, outside `src/`.  The source uses its `NoSuchKey` constructor
(line 117) and the spec's translator table (section 4.5) gives exactly two
backend classifications: object not found, and transport/storage failure. -/
inductive S3GetError where
  | NoSuchKey (msg : String)
  | ServerError (msg : String)
deriving DecidableEq

/-- Modelled from the spec: the classification of an `S3GetError`
(section 4.5): object not found maps to `NotFound`, a transport/storage
failure to `BackendError`. -/
def S3GetError.code : S3GetError → ErrorCodes
  | S3GetError.NoSuchKey _ => ErrorCodes.NotFound
  | S3GetError.ServerError _ => ErrorCodes.BackendError

/-- Modelled from the spec: the stream-item error type `GetError`
(`super::GetError`, outside `src/`).  The source matches exactly these three
constructors (lines 109-123): a wrapped backend error, a not-found error,
and a local-only error that is never expected from a remote stream
(section 4.5). -/
inductive GetError where
  | S3Error (e : S3GetError)
  | NoSuchKey (msg : String)
  | LocalError (msg : String)
deriving DecidableEq

/-- Modelled from the spec: the backend's classification of a stream-item
error (sections 4.5 and 7); `none` for the local-only variant, which has no
remote classification. -/
def GetError.code : GetError → Option ErrorCodes
  | GetError.S3Error e => some e.code
  | GetError.NoSuchKey _ => some ErrorCodes.NotFound
  | GetError.LocalError _ => none

/-- The proxy error type, from the source:
`enum AdmissionControlledS3StorageError { S3GetError(S3GetError) }`. -/
inductive AdmissionControlledS3StorageError where
  | S3GetError (e : S3GetError)
deriving DecidableEq

/-- From the source: `impl ChromaError for AdmissionControlledS3StorageError`
delegates `code` to the wrapped backend error. -/
def AdmissionControlledS3StorageError.code :
    AdmissionControlledS3StorageError → ErrorCodes
  | AdmissionControlledS3StorageError.S3GetError e => e.code

/-- One item of a backend byte stream: a byte chunk or a `GetError`
(`stream::ByteStreamItem`, outside `src/`; the drain loop at lines 102-126
consumes it as `Result<chunk, GetError>`). -/
abbrev ByteStreamItem : Type := Except GetError (List Nat)

instance {ε α : Type} [DecidableEq ε] [DecidableEq α] :
    DecidableEq (Except ε α) := fun x y =>
  match x, y with
  | Except.ok a, Except.ok b =>
    if h : a = b then isTrue (by rw [h])
    else isFalse (by intro hc; cases hc; exact h rfl)
  | Except.ok _, Except.error _ => isFalse (by intro hc; cases hc)
  | Except.error _, Except.ok _ => isFalse (by intro hc; cases hc)
  | Except.error e, Except.error f =>
    if h : e = f then isTrue (by rw [h])
    else isFalse (by intro hc; cases hc; exact h rfl)


/-- The error translation performed by the `match err` in the drain loop of
`read_from_storage` (lines 109-123): a backend `S3Error` is re-wrapped, a
`NoSuchKey` is wrapped as `S3GetError::NoSuchKey`, and the local-only
variant hits `unreachable!()` — modelled as `none` (panic). -/
def translateGetError : GetError → Option AdmissionControlledS3StorageError
  | GetError.S3Error e =>
      some (AdmissionControlledS3StorageError.S3GetError e)
  | GetError.NoSuchKey e =>
      some (AdmissionControlledS3StorageError.S3GetError (S3GetError.NoSuchKey e))
  | GetError.LocalError _ => none

/-- The `while let Some(res) = bytes.next().await` loop of
`read_from_storage` (lines 102-126): pull items in order, appending each
successful chunk to the accumulator `buf`; on the first error item, return
the translated error immediately (the accumulated bytes are dropped); on
end of stream return `Ok(Some(buf))`.  The outer `Option` models the
`unreachable!()` panic on `GetError::LocalError`; the inner
`Option (List Nat)` is the source's own `Option` around the buffer. -/
def readLoop :
    List ByteStreamItem → List Nat →
    Option (Except AdmissionControlledS3StorageError (Option (List Nat)))
  | [], buf => some (Except.ok (some buf))
  | item :: rest, buf =>
    match item with
    | Except.ok chunk => readLoop rest (buf ++ chunk)
    | Except.error err =>
      match translateGetError err with
      | some e => some (Except.error e)
      | none => none

/-- `AdmissionControlledS3Storage::read_from_storage` (lines 87-143): open
the backend stream for the key; on an open error, wrap it; otherwise drain
the stream with `readLoop` starting from an empty buffer, propagate a drain
error (the source's `?`), and unwrap the buffer option — the `None` arm
returns an empty buffer (dead in practice, kept from the source).  The
argument is the outcome of `storage.get_stream(&key)`. -/
def read_from_storage
    (stream : Except S3GetError (List ByteStreamItem)) :
    Option (Except AdmissionControlledS3StorageError (List Nat)) :=
  match stream with
  | Except.ok bytes =>
    match readLoop bytes [] with
    | none => none
    | some (Except.error e) => some (Except.error e)
    | some (Except.ok buf) =>
      match buf with
      | some b => some (Except.ok b)
      | none => some (Except.ok [])
  | Except.error e =>
    some (Except.error (AdmissionControlledS3StorageError.S3GetError e))

/-- Modelled from the spec: the write-path error type `S3PutError` lives in
`s3.rs`, outside `src/`; writes are forwarded verbatim (section 6), so only
its identity matters here. -/
inductive S3PutError where
  | PutError (msg : String)
deriving DecidableEq

/-- Modelled from the spec: the backend handle `S3Storage` (the external
collaborator of section 6), reduced to the three operations the proxy
invokes: `get_stream`, `put_bytes`, `put_file`.  Each is a pure function
since the proxy treats the backend as a black box. -/
structure S3Storage where
  get_stream : String → Except S3GetError (List ByteStreamItem)
  put_bytes : String → List Nat → Except S3PutError Unit
  put_file : String → String → Except S3PutError Unit

/-- The registry type: the proxy's `outstanding_requests` map, keyed by
object key.  The stored value is an identity for the shared in-flight
computation (the model's stand-in for the `Shared` boxed future). -/
abbrev Registry : Type := String → Option Nat

/-- `AdmissionControlledS3Storage::get_stream` (lines 65-85): call the
backend's streaming accessor and wrap any error as
`AdmissionControlledS3StorageError::S3GetError`; the registry is not
touched, which the model shows by threading it through unchanged. -/
def AdmissionControlledS3Storage.get_stream
    (storage : S3Storage) (reg : Registry) (key : String) :
    Except AdmissionControlledS3StorageError (List ByteStreamItem) × Registry :=
  (match storage.get_stream key with
   | Except.ok res => Except.ok res
   | Except.error e =>
       Except.error (AdmissionControlledS3StorageError.S3GetError e),
   reg)

/-- `AdmissionControlledS3Storage::put_bytes` (lines 180-182): direct
passthrough to `self.storage.put_bytes(key, bytes)`; the registry is not
touched. -/
def AdmissionControlledS3Storage.put_bytes
    (storage : S3Storage) (reg : Registry) (key : String) (bytes : List Nat) :
    Except S3PutError Unit × Registry :=
  (storage.put_bytes key bytes, reg)

/-- `AdmissionControlledS3Storage::put_file` (lines 176-178): direct
passthrough to `self.storage.put_file(key, path)`; the registry is not
touched. -/
def AdmissionControlledS3Storage.put_file
    (storage : S3Storage) (reg : Registry) (key : String) (path : String) :
    Except S3PutError Unit × Registry :=
  (storage.put_file key path, reg)

/-- Interleaving state for `AdmissionControlledS3Storage::get` (lines
145-174).  `registry` is the `outstanding_requests` map, with each stored
`Shared` future represented by a numeric computation identity; `nextId`
supplies fresh identities; `fetches key` counts how many
`read_from_storage` futures have been constructed for `key` (one per
backend fetch); `joined c` records which computation caller `c`'s `get`
awaits. -/
structure ProxyState where
  registry : String → Option Nat
  nextId : Nat
  fetches : String → Nat
  joined : Nat → Option Nat

/-- The first critical section of `get` (lines 150-166), executed atomically
under `self.outstanding_requests.lock()`: look up `key`; if a future is
registered, clone (join) it; otherwise construct the `read_from_storage`
future — counted as a backend fetch — insert it under `key`, and await
it. -/
def getAcquire (s : ProxyState) (c : Nat) (key : String) : ProxyState :=
  match s.registry key with
  | some fid =>
    { s with joined := fun c2 => if c2 = c then some fid else s.joined c2 }
  | none =>
    { s with
      registry := fun k => if k = key then some s.nextId else s.registry k,
      nextId := s.nextId + 1,
      fetches := fun k => if k = key then s.fetches k + 1 else s.fetches k,
      joined := fun c2 => if c2 = c then some s.nextId else s.joined c2 }

/-- The second critical section of `get` (lines 168-171), executed after the
awaited future settles: `requests.remove(&key)` — removal is by key alone,
with no comparison against the settled computation's identity. -/
def getRetire (s : ProxyState) (key : String) : ProxyState :=
  { s with registry := fun k => if k = key then none else s.registry k }

/-- One atomic event of the interleaving semantics: some caller executes one
of `get`'s two critical sections. -/
inductive GetEvent where
  | acquire (caller : Nat) (key : String)
  | retire (key : String)

/-- Apply one event to the state. -/
def stepEvent (s : ProxyState) : GetEvent → ProxyState
  | GetEvent.acquire c k => getAcquire s c k
  | GetEvent.retire k => getRetire s k

/-- Run a list of events (one interleaved execution) left to right. -/
def runEvents (s : ProxyState) (es : List GetEvent) : ProxyState :=
  es.foldl stepEvent s

/-- The state of a freshly constructed proxy
(`AdmissionControlledS3Storage::new`, lines 56-61): empty
`outstanding_requests` map, no fetches issued, no caller joined. -/
def initProxyState : ProxyState :=
  { registry := fun _ => none,
    nextId := 0,
    fetches := fun _ => 0,
    joined := fun _ => none }

/-- What a caller's `get` returns once its awaited computation settles: the
memoized outcome of the joined computation.  `results` assigns each
computation identity its single memoized outcome (a `Shared` future
resolves identically for every holder). -/
def observe
    (results : Nat → Except AdmissionControlledS3StorageError (List Nat))
    (s : ProxyState) (c : Nat) :
    Option (Except AdmissionControlledS3StorageError (List Nat)) :=
  (s.joined c).map results

/-- A whole sequential (uncontended) `get` call: the acquire section, the
await, then the retire section.  The retire section runs whether the
settled outcome is a success or an error, since `res` is an ordinary
`Result` value returned only after the `remove` (lines 167-173). -/
def getCall (s : ProxyState) (c : Nat) (key : String) : ProxyState :=
  getRetire (getAcquire s c key) key

/-- Modelled from the spec: the S3 backend configuration payload
(`S3StorageConfig`, outside `src/`); its fields are backend-internal, so it
is kept opaque. -/
structure S3Config where
  data : String

/-- Modelled from the spec: the `AdmissionControlledS3` configuration
variant's payload; the source reads its `s3_config` field (line 190). -/
structure AdmissionControlledS3Config where
  s3_config : S3Config

/-- Modelled from the spec: `StorageConfig` (in `config.rs`, outside
`src/`): the source matches the `AdmissionControlledS3` variant and has a
catch-all arm for every other variant (lines 187-199); `S3` is the variant
the source builds for the inner backend, and `Local` stands for the
remaining variants. -/
inductive StorageConfig where
  | S3 (c : S3Config)
  | Local (root : String)
  | AdmissionControlledS3 (c : AdmissionControlledS3Config)

/-- Modelled from the spec: `StorageConfigError::InvalidStorageConfig`
(outside `src/`), the error the source returns for a non-matching
configuration variant (line 197). -/
inductive StorageConfigError where
  | InvalidStorageConfig
deriving DecidableEq

/-- Modelled from the spec: the boxed `ChromaError` returned by
`try_from_config` — either a configuration error or some other backend
error propagated by `?` from the inner constructor. -/
inductive ChromaError where
  | StorageConfig (e : StorageConfigError)
  | Other (msg : String)
deriving DecidableEq

/-- The constructed proxy value: the wrapped backend plus the
`outstanding_requests` registry. -/
structure AdmissionControlledS3Storage where
  storage : S3Storage
  outstanding_requests : Registry

/-- `AdmissionControlledS3Storage::new` (lines 56-61): wrap the backend
with an empty registry. -/
def AdmissionControlledS3Storage.new (storage : S3Storage) :
    AdmissionControlledS3Storage :=
  { storage := storage, outstanding_requests := fun _ => none }

/-- `Configurable::try_from_config` (lines 185-201): on the
`AdmissionControlledS3` variant, build the inner `S3Storage` from an `S3`
config holding the variant's `s3_config` (propagating its error via `?`)
and wrap it with `new`; on every other variant return
`InvalidStorageConfig`.  The external constructor
`S3Storage::try_from_config` is passed in as `s3_from_config`. -/
def AdmissionControlledS3Storage.try_from_config
    (s3_from_config : StorageConfig → Except ChromaError S3Storage)
    (config : StorageConfig) :
    Except ChromaError AdmissionControlledS3Storage :=
  match config with
  | StorageConfig.AdmissionControlledS3 nacconfig =>
    match s3_from_config (StorageConfig.S3 nacconfig.s3_config) with
    | Except.ok s3_storage =>
        Except.ok (AdmissionControlledS3Storage.new s3_storage)
    | Except.error e => Except.error e
  | _ =>
    Except.error (ChromaError.StorageConfig StorageConfigError.InvalidStorageConfig)

/-- A sample backend whose streams succeed, used to instantiate theorems
with hypotheses at concrete inputs. -/
def sampleOkStorage : S3Storage :=
  { get_stream := fun _ => Except.ok [Except.ok [104, 105]],
    put_bytes := fun _ _ => Except.ok (),
    put_file := fun _ _ => Except.ok () }

/-- A sample backend whose streams fail with `NoSuchKey`, used to
instantiate theorems with hypotheses at concrete inputs. -/
def sampleMissingStorage : S3Storage :=
  { get_stream := fun _ => Except.error (S3GetError.NoSuchKey "missing"),
    put_bytes := fun _ _ => Except.ok (),
    put_file := fun _ _ => Except.ok () }

/-- The empty registry, as created by `AdmissionControlledS3Storage::new`. -/
def emptyRegistry : Registry := fun _ => none

/-!
Theorems.  Helper lemmas come first, then one theorem per claim (with a
witness where the theorem carries a hypothesis).
-/

/-- Draining a stream whose first error item is `err` yields the translated
error (or the panic `none` for the local-only variant), regardless of the
chunks already accumulated, of the bytes drained before the error, and of
the items after it. -/
theorem readLoop_first_error (pre : List (List Nat)) (err : GetError)
    (rest : List ByteStreamItem) (buf : List Nat) :
    readLoop (pre.map Except.ok ++ Except.error err :: rest) buf
      = (translateGetError err).map Except.error := by
  induction pre generalizing buf with
  | nil =>
    cases h : translateGetError err <;> simp [readLoop, h]
  | cons chunk pre ih =>
    simpa [readLoop] using ih (buf ++ chunk)

/-- Claim C5: a stream that yields zero chunks and then ends drains to a
successful empty buffer, not an error. -/
theorem empty_stream_yields_empty_buffer :
    read_from_storage (Except.ok []) = some (Except.ok []) := rfl

/-- Claim C7: `put_bytes` and `put_file` forward key, bytes and path
unchanged to the backend, return the backend's result unmodified, and leave
the registry untouched. -/
theorem put_passthrough (storage : S3Storage) (reg : Registry)
    (key : String) (bytes : List Nat) (path : String) :
    AdmissionControlledS3Storage.put_bytes storage reg key bytes
      = (storage.put_bytes key bytes, reg)
    ∧ AdmissionControlledS3Storage.put_file storage reg key path
      = (storage.put_file key path, reg) :=
  ⟨rfl, rfl⟩

/-- Claim C8: `get_stream` leaves the registry unchanged and is a direct
passthrough — the backend's stream is returned as-is on success, and a
backend error is returned wrapped as the proxy error. -/
theorem get_stream_bypass (storage : S3Storage) (reg : Registry)
    (key : String) :
    (AdmissionControlledS3Storage.get_stream storage reg key).2 = reg
    ∧ (∀ s, storage.get_stream key = Except.ok s →
        (AdmissionControlledS3Storage.get_stream storage reg key).1
          = Except.ok s)
    ∧ (∀ e, storage.get_stream key = Except.error e →
        (AdmissionControlledS3Storage.get_stream storage reg key).1
          = Except.error (AdmissionControlledS3StorageError.S3GetError e)) := by
  refine ⟨rfl, ?_, ?_⟩ <;>
    · intro x hx
      simp [AdmissionControlledS3Storage.get_stream, hx]

/-- Witness for C8 at two concrete backends. -/
theorem get_stream_bypass_witness :
    (AdmissionControlledS3Storage.get_stream sampleOkStorage emptyRegistry "k").1
      = Except.ok [Except.ok [104, 105]]
    ∧ (AdmissionControlledS3Storage.get_stream sampleMissingStorage emptyRegistry "k").1
      = Except.error
          (AdmissionControlledS3StorageError.S3GetError (S3GetError.NoSuchKey "missing")) :=
  ⟨(get_stream_bypass sampleOkStorage emptyRegistry "k").2.1
      [Except.ok [104, 105]] rfl,
   (get_stream_bypass sampleMissingStorage emptyRegistry "k").2.2
      (S3GetError.NoSuchKey "missing") rfl⟩

/-- Claim C10: `try_from_config` accepts exactly the
`AdmissionControlledS3` variant — wrapping the successfully constructed S3
backend via `new` — and returns `InvalidStorageConfig` on every other
variant. -/
theorem try_from_config_selects_variant
    (s3_from_config : StorageConfig → Except ChromaError S3Storage) :
    (∀ (nac : AdmissionControlledS3Config) (s3 : S3Storage),
      s3_from_config (StorageConfig.S3 nac.s3_config) = Except.ok s3 →
      AdmissionControlledS3Storage.try_from_config s3_from_config
          (StorageConfig.AdmissionControlledS3 nac)
        = Except.ok (AdmissionControlledS3Storage.new s3))
    ∧ ∀ config : StorageConfig,
      (∀ nac, config ≠ StorageConfig.AdmissionControlledS3 nac) →
      AdmissionControlledS3Storage.try_from_config s3_from_config config
        = Except.error
            (ChromaError.StorageConfig StorageConfigError.InvalidStorageConfig) := by
  constructor
  · intro nac s3 h
    simp [AdmissionControlledS3Storage.try_from_config, h]
  · intro config h
    cases config with
    | S3 c => rfl
    | Local root => rfl
    | AdmissionControlledS3 nac => exact absurd rfl (h nac)

/-- Witness for C10: a concrete accepted configuration and a concrete
rejected one. -/
theorem try_from_config_selects_variant_witness :
    AdmissionControlledS3Storage.try_from_config
        (fun _ => Except.ok sampleOkStorage)
        (StorageConfig.AdmissionControlledS3 ⟨⟨"cfg"⟩⟩)
      = Except.ok (AdmissionControlledS3Storage.new sampleOkStorage)
    ∧ AdmissionControlledS3Storage.try_from_config
        (fun _ => Except.ok sampleOkStorage) (StorageConfig.Local "root")
      = Except.error
          (ChromaError.StorageConfig StorageConfigError.InvalidStorageConfig) :=
  ⟨(try_from_config_selects_variant (fun _ => Except.ok sampleOkStorage)).1
      ⟨⟨"cfg"⟩⟩ sampleOkStorage rfl,
   (try_from_config_selects_variant (fun _ => Except.ok sampleOkStorage)).2
      (StorageConfig.Local "root") (fun _ h => StorageConfig.noConfusion h)⟩

/-- Claim C3: error kinds survive `read_from_storage` — a failure opening
the stream is returned wrapped with its backend classification intact, and
a chunk error is returned as its translation, whose classification equals
the backend's (in particular `NoSuchKey` stays `NotFound`). -/
theorem error_kind_fidelity :
    (∀ e : S3GetError,
      read_from_storage (Except.error e)
        = some (Except.error (AdmissionControlledS3StorageError.S3GetError e))
      ∧ (AdmissionControlledS3StorageError.S3GetError e).code = e.code)
    ∧ ∀ (pre : List (List Nat)) (err : GetError) (rest : List ByteStreamItem)
        (e : AdmissionControlledS3StorageError),
      translateGetError err = some e →
      read_from_storage
          (Except.ok (pre.map Except.ok ++ Except.error err :: rest))
        = some (Except.error e)
      ∧ GetError.code err = some e.code := by
  constructor
  · intro e
    exact ⟨rfl, rfl⟩
  · intro pre err rest e h
    have hl := readLoop_first_error pre err rest []
    rw [h] at hl
    constructor
    · simp [read_from_storage, hl]
    · cases err with
      | S3Error e0 =>
        cases h
        rfl
      | NoSuchKey m =>
        cases h
        rfl
      | LocalError m => cases h

/-- Witness for C3: a `NoSuchKey` chunk error on key `missing` is returned
with the `NotFound` classification preserved. -/
theorem error_kind_fidelity_witness :
    read_from_storage (Except.ok [Except.error (GetError.NoSuchKey "missing")])
      = some (Except.error
          (AdmissionControlledS3StorageError.S3GetError (S3GetError.NoSuchKey "missing")))
    ∧ GetError.code (GetError.NoSuchKey "missing")
      = some
          (AdmissionControlledS3StorageError.S3GetError
            (S3GetError.NoSuchKey "missing")).code :=
  error_kind_fidelity.2 [] (GetError.NoSuchKey "missing") []
    (AdmissionControlledS3StorageError.S3GetError (S3GetError.NoSuchKey "missing")) rfl

/-- Claim C6: when a chunk yields a (remote) error, the drain returns that
error — so the bytes accumulated before it are discarded and never returned
as a success — and the result coincides with draining the error alone: the
items after the error are never pulled. -/
theorem chunk_error_aborts (pre : List (List Nat)) (err : GetError)
    (rest : List ByteStreamItem) (e : AdmissionControlledS3StorageError)
    (h : translateGetError err = some e) :
    read_from_storage
        (Except.ok (pre.map Except.ok ++ Except.error err :: rest))
      = some (Except.error e)
    ∧ read_from_storage
        (Except.ok (pre.map Except.ok ++ Except.error err :: rest))
      = read_from_storage (Except.ok [Except.error err]) := by
  have h1 := readLoop_first_error pre err rest []
  have h2 := readLoop_first_error [] err [] []
  rw [h] at h1 h2
  simp only [List.map_nil, List.nil_append] at h2
  constructor
  · simp [read_from_storage, h1]
  · simp [read_from_storage, h1, h2]

/-- Witness for C6: a backend error in the middle of a stream aborts the
drain, dropping both the chunk already read and the chunk after it. -/
theorem chunk_error_aborts_witness :
    read_from_storage
        (Except.ok [Except.ok [104], Except.error (GetError.S3Error (S3GetError.ServerError "boom")),
          Except.ok [105]])
      = some (Except.error
          (AdmissionControlledS3StorageError.S3GetError (S3GetError.ServerError "boom")))
    ∧ read_from_storage
        (Except.ok [Except.ok [104], Except.error (GetError.S3Error (S3GetError.ServerError "boom")),
          Except.ok [105]])
      = read_from_storage
          (Except.ok [Except.error (GetError.S3Error (S3GetError.ServerError "boom"))]) :=
  chunk_error_aborts [[104]] (GetError.S3Error (S3GetError.ServerError "boom"))
    [Except.ok [105]]
    (AdmissionControlledS3StorageError.S3GetError (S3GetError.ServerError "boom")) rfl

/-- A drain of a stream containing no local-only error item never panics. -/
theorem readLoop_no_local_isSome (items : List ByteStreamItem) (buf : List Nat)
    (h : ∀ m, Except.error (GetError.LocalError m) ∉ items) :
    (readLoop items buf).isSome := by
  induction items generalizing buf with
  | nil => simp [readLoop]
  | cons item rest ih =>
    cases item with
    | ok chunk =>
      simpa [readLoop] using
        ih (buf ++ chunk) (fun m hm => h m (List.mem_cons_of_mem _ hm))
    | error err =>
      cases err with
      | S3Error e => simp [readLoop, translateGetError]
      | NoSuchKey m => simp [readLoop, translateGetError]
      | LocalError m => exact absurd (List.mem_cons_self _ _) (h m)

/-- Claim C9: if the backend stream never yields the local-only error
variant, the drain never takes the `unreachable!()` branch (it returns an
ordinary value); and if a local-only error does surface as the first error,
the drain panics instead of returning an error value. -/
theorem local_error_invariant :
    (∀ items : List ByteStreamItem,
      (∀ m, Except.error (GetError.LocalError m) ∉ items) →
      (read_from_storage (Except.ok items)).isSome)
    ∧ ∀ (pre : List (List Nat)) (m : String) (rest : List ByteStreamItem),
      read_from_storage
          (Except.ok (pre.map Except.ok ++ Except.error (GetError.LocalError m) :: rest))
        = none := by
  constructor
  · intro items h
    have hs := readLoop_no_local_isSome items [] h
    unfold read_from_storage
    cases hl : readLoop items [] with
    | none => rw [hl] at hs; simp at hs
    | some r =>
      cases r with
      | error e => simp [hl]
      | ok buf => cases buf <;> simp [hl]
  · intro pre m rest
    have hl := readLoop_first_error pre (GetError.LocalError m) rest []
    simp only [translateGetError, Option.map_none] at hl
    simp [read_from_storage, hl]

/-- Witness for C9: a clean two-byte stream drains without panicking, and a
stream whose first item is a local-only error panics. -/
theorem local_error_invariant_witness :
    (read_from_storage (Except.ok [Except.ok [104, 105]])).isSome
    ∧ read_from_storage (Except.ok [Except.error (GetError.LocalError "oops")]) = none :=
  ⟨local_error_invariant.1 [Except.ok [104, 105]] (by intro m hm; simp at hm),
   local_error_invariant.2 [] "oops" []⟩

/-- Joining: while a computation `fid` is registered for `key` and only
acquire sections for `key` run, the registry entry stays `fid`, no new
backend fetch is issued, and every acquiring caller — as well as every
caller already joined to `fid` — ends up joined to `fid`. -/
theorem runAcquires_join (cs : List Nat) (s : ProxyState) (key : String)
    (fid : Nat) (h : s.registry key = some fid) :
    (runEvents s (cs.map (fun c => GetEvent.acquire c key))).registry key
      = some fid
    ∧ (runEvents s (cs.map (fun c => GetEvent.acquire c key))).fetches key
      = s.fetches key
    ∧ ∀ c : Nat, (c ∈ cs ∨ s.joined c = some fid) →
      (runEvents s (cs.map (fun c => GetEvent.acquire c key))).joined c
        = some fid := by
  induction cs generalizing s with
  | nil =>
    refine ⟨h, rfl, ?_⟩
    intro c hc
    rcases hc with hc | hc
    · exact absurd hc (List.not_mem_nil c)
    · exact hc
  | cons c0 cs ih =>
    have hstep :
        runEvents s ((c0 :: cs).map (fun c => GetEvent.acquire c key))
          = runEvents (getAcquire s c0 key)
              (cs.map (fun c => GetEvent.acquire c key)) := rfl
    have hs1 : getAcquire s c0 key
        = { s with joined := fun c2 => if c2 = c0 then some fid else s.joined c2 } := by
      simp [getAcquire, h]
    have h1 : (getAcquire s c0 key).registry key = some fid := by rw [hs1]; exact h
    obtain ⟨hr, hf, hj⟩ := ih (getAcquire s c0 key) h1
    refine ⟨by rw [hstep]; exact hr, ?_, ?_⟩
    · rw [hstep, hf, hs1]
    · intro c hc
      rw [hstep]
      apply hj
      rcases hc with hc | hc
      · rcases List.mem_cons.mp hc with hc | hc
        · subst hc
          right
          rw [hs1]
          simp
        · exact Or.inl hc
      · right
        rw [hs1]
        simp only []
        by_cases hcc : c = c0
        · simp [hcc]
        · simp [hcc, hc]

/-- Claim C2: single-flight coalescing — if at least two callers run their
acquire sections for `key` while no computation for `key` is registered
(and no retirement intervenes), exactly one new backend fetch is issued,
every caller joins the same computation, and hence every pair of callers
observes the identical memoized outcome (same buffer bytes or same
error). -/
theorem single_flight (s : ProxyState) (key : String) (cs : List Nat)
    (h0 : s.registry key = none) (hN : 2 ≤ cs.length) :
    (runEvents s (cs.map (fun c => GetEvent.acquire c key))).fetches key
      = s.fetches key + 1
    ∧ ∃ fid : Nat,
      (∀ c, c ∈ cs →
        (runEvents s (cs.map (fun c => GetEvent.acquire c key))).joined c
          = some fid)
      ∧ ∀ (results : Nat → Except AdmissionControlledS3StorageError (List Nat))
          (c1 c2 : Nat), c1 ∈ cs → c2 ∈ cs →
        observe results (runEvents s (cs.map (fun c => GetEvent.acquire c key))) c1
          = observe results (runEvents s (cs.map (fun c => GetEvent.acquire c key))) c2 := by
  cases cs with
  | nil => simp at hN
  | cons c0 cs =>
    have hstep :
        runEvents s ((c0 :: cs).map (fun c => GetEvent.acquire c key))
          = runEvents (getAcquire s c0 key)
              (cs.map (fun c => GetEvent.acquire c key)) := rfl
    have hs1 : getAcquire s c0 key
        = { s with
            registry := fun k => if k = key then some s.nextId else s.registry k,
            nextId := s.nextId + 1,
            fetches := fun k => if k = key then s.fetches k + 1 else s.fetches k,
            joined := fun c2 => if c2 = c0 then some s.nextId else s.joined c2 } := by
      simp [getAcquire, h0]
    have h1 : (getAcquire s c0 key).registry key = some s.nextId := by
      rw [hs1]; simp
    obtain ⟨hr, hf, hj⟩ := runAcquires_join cs (getAcquire s c0 key) key s.nextId h1
    have hjoinedAll : ∀ c, c ∈ c0 :: cs →
        (runEvents s ((c0 :: cs).map (fun c => GetEvent.acquire c key))).joined c
          = some s.nextId := by
      intro c hc
      rw [hstep]
      apply hj
      rcases List.mem_cons.mp hc with hc | hc
      · subst hc
        right
        rw [hs1]
        simp
      · exact Or.inl hc
    refine ⟨?_, s.nextId, hjoinedAll, ?_⟩
    · rw [hstep, hf, hs1]
      simp
    · intro results c1 c2 hc1 hc2
      unfold observe
      rw [hjoinedAll c1 hc1, hjoinedAll c2 hc2]

/-- Witness for C2: two callers acquiring key `k` on a fresh proxy. -/
theorem single_flight_witness :
    (runEvents initProxyState
        ([1, 2].map (fun c => GetEvent.acquire c "k"))).fetches "k"
      = initProxyState.fetches "k" + 1
    ∧ ∃ fid : Nat,
      (∀ c, c ∈ [1, 2] →
        (runEvents initProxyState
            ([1, 2].map (fun c => GetEvent.acquire c "k"))).joined c
          = some fid)
      ∧ ∀ (results : Nat → Except AdmissionControlledS3StorageError (List Nat))
          (c1 c2 : Nat), c1 ∈ [1, 2] → c2 ∈ [1, 2] →
        observe results
            (runEvents initProxyState
              ([1, 2].map (fun c => GetEvent.acquire c "k"))) c1
          = observe results
              (runEvents initProxyState
                ([1, 2].map (fun c => GetEvent.acquire c "k"))) c2 :=
  single_flight initProxyState "k" [1, 2] rfl (by decide)

/-- Claim C4: a sequential `get` always retires its key on the way out —
after the call the registry holds no entry for the key, whatever the
settled outcome was (`requests.remove` runs before the result is
inspected) — so a following `get` for the same key issues a fresh backend
fetch. -/
theorem post_settlement_reset (s : ProxyState) (c c2 : Nat) (key : String) :
    (getCall s c key).registry key = none
    ∧ (getCall (getCall s c key) c2 key).fetches key
      = (getCall s c key).fetches key + 1 := by
  have hnone : ∀ t : ProxyState, (getRetire t key).registry key = none := by
    intro t
    simp [getRetire]
  constructor
  · exact hnone _
  · have h0 : (getCall s c key).registry key = none := hnone _
    show (getRetire (getAcquire (getCall s c key) c2 key) key).fetches key = _
    rw [show ∀ t : ProxyState, (getRetire t key).fetches = t.fetches from fun t => rfl]
    simp [getAcquire, h0]

/-- Claim C1 (violated by the source): retirement is by key alone.  In the
interleaving where callers 1 and 2 coalesce on key `k` (computation 0),
caller 1's retire removes the settled entry, caller 3 then registers a
fresh computation 1, and caller 2's retire runs last, the code leaves no
registry entry for `k` — caller 2's `requests.remove(&key)` has deleted
caller 3's live computation 1, which identity-compared retirement would
have kept registered. -/
theorem retire_by_key_deletes_live_entry :
    (runEvents initProxyState
        [GetEvent.acquire 1 "k", GetEvent.acquire 2 "k",
          GetEvent.retire "k", GetEvent.acquire 3 "k"]).registry "k"
      = some 1
    ∧ (runEvents initProxyState
        [GetEvent.acquire 1 "k", GetEvent.acquire 2 "k",
          GetEvent.retire "k", GetEvent.acquire 3 "k",
          GetEvent.retire "k"]).registry "k"
      = none
    ∧ (runEvents initProxyState
        [GetEvent.acquire 1 "k", GetEvent.acquire 2 "k",
          GetEvent.retire "k", GetEvent.acquire 3 "k",
          GetEvent.retire "k"]).joined 2
      = some 0
    ∧ (runEvents initProxyState
        [GetEvent.acquire 1 "k", GetEvent.acquire 2 "k",
          GetEvent.retire "k", GetEvent.acquire 3 "k",
          GetEvent.retire "k"]).joined 3
      = some 1
    ∧ (runEvents initProxyState
        [GetEvent.acquire 1 "k", GetEvent.acquire 2 "k",
          GetEvent.retire "k", GetEvent.acquire 3 "k",
          GetEvent.retire "k"]).fetches "k"
      = 2 := by
  refine ⟨?_, ?_, ?_, ?_, ?_⟩ <;> rfl
